import Mathlib

set_option maxHeartbeats 1000000

/-!
Shallow embedding of the CitySample mesh-automation scripts
(`percenttriangles.py`, `OverReducedFinder.py`, `TrianglesListMaker.py`).

The three scripts share a "resilient property accessor": to read or write one
logical property (the LOD0 `percent_triangles` reduction setting) they try a
fixed priority-ordered chain of host-API access paths, each wrapped in a
`try/except` that swallows every exception and falls through to the next path.

The embedding models each access path attempt by its observable outcome:

* a read strategy either raises, finds its container absent (falsy, so the
  guarded block falls through without returning), or returns a value;
* a write strategy either raises, finds its container absent, or completes
  the write and returns `True`.

A host `StaticMesh` is modelled by the outcome each access route would
produce, plus the stored property values the routes expose, so that the
scripts' functions become total Lean functions over this state.  Stateful
operations (`set_percent_triangles_lod0`, `ensure_nanite_disabled`,
`build_and_save`) are embedded with explicit state passing.
-/

/-- Observable outcome of one read strategy of the fallback chain: the
`try` block raises, finds its container falsy and falls through (`absent`),
or returns a value. -/
inductive StratResult (α : Type) where
  | raises
  | absent
  | val (v : α)
deriving DecidableEq

/-- Observable outcome of one write strategy of the fallback chain: the
`try` block raises, finds its container falsy and falls through (`absent`),
or completes the write and returns `True` (`success`). -/
inductive WriteResult where
  | raises
  | absent
  | success
deriving DecidableEq

/-- Read fallback chain: the sequential `try/except` blocks of
`get_percent_triangles_lod0`.  The first strategy producing a value returns
it at once; a strategy that raises or finds its container absent falls
through to the next; if no strategy produces a value the function returns
`None`. -/
def readChain {α : Type} : List (StratResult α) → Option α
  | [] => none
  | StratResult.val v :: _ => some v
  | StratResult.raises :: rest => readChain rest
  | StratResult.absent :: rest => readChain rest

/-- Write fallback chain: the sequential `try/except` blocks of
`set_percent_triangles_lod0`.  The first strategy that completes the write
returns `True` at once; a strategy that raises or finds its container absent
falls through; if no strategy completes the function returns `False`. -/
def writeChain : List WriteResult → Bool
  | [] => false
  | WriteResult.success :: _ => true
  | WriteResult.raises :: rest => writeChain rest
  | WriteResult.absent :: rest => writeChain rest

/-- Number of strategies of a read chain that actually run: execution stops
at the first strategy returning a value, so later strategies are not
invoked. -/
def attemptsRead {α : Type} : List (StratResult α) → Nat
  | [] => 0
  | StratResult.val _ :: _ => 1
  | StratResult.raises :: rest => 1 + attemptsRead rest
  | StratResult.absent :: rest => 1 + attemptsRead rest

/-- Number of strategies of a write chain that actually run: execution stops
at the first strategy that completes the write. -/
def attemptsWrite : List WriteResult → Nat
  | [] => 0
  | WriteResult.success :: _ => 1
  | WriteResult.raises :: rest => 1 + attemptsWrite rest
  | WriteResult.absent :: rest => 1 + attemptsWrite rest

/-- State of one host access route for the reduction-percent property
(`lods`, `source_models`, or the StaticMeshEditorSubsystem): the route works
(`ok`), its container is falsy (`absent`), or touching it raises
(`broken`). -/
inductive RouteStatus where
  | ok
  | absent
  | broken
deriving DecidableEq

/-- How the Nanite flag of a mesh can be reached: the preferred
`is_nanite_enabled` API exists (`api`), or only the older `nanite_settings`
property path, which may be present, falsy, or raise. -/
inductive NaniteAccess where
  | api
  | settingsOk
  | settingsAbsent
  | settingsRaises
deriving DecidableEq

/-- Host `unreal.StaticMesh` object, modelled by the attributes the scripts
consume: the outcomes of the three read and three write access routes for
LOD0 `percent_triangles`, the stored property value those routes expose, the
outcomes of the triangle-count APIs, the Nanite flag and its access shape,
and whether the build/save host calls would succeed.  `persisted` records
whether a save has gone through. -/
structure StaticMesh where
  name : String := "SM_Asset"
  package_path : String := "/Game/SM_Asset"
  lodsRead : RouteStatus := RouteStatus.ok
  sourceModelsRead : RouteStatus := RouteStatus.absent
  subsystemRead : RouteStatus := RouteStatus.absent
  lodsWrite : WriteResult := WriteResult.success
  sourceModelsWrite : WriteResult := WriteResult.absent
  subsystemWrite : WriteResult := WriteResult.absent
  percent_triangles : ℚ := 1
  triApi : Option Int := some 1000
  triRender : Option Int := none
  naniteAccess : NaniteAccess := NaniteAccess.api
  naniteEnabled : Bool := false
  buildOk : Bool := true
  saveOk : Bool := true
  persisted : Bool := false
deriving DecidableEq

/-- Outcome of one read strategy on a given route: a working route yields the
stored value, an absent route falls through, a broken route raises. -/
def routeRead (r : RouteStatus) (v : ℚ) : StratResult ℚ :=
  match r with
  | RouteStatus.ok => StratResult.val v
  | RouteStatus.absent => StratResult.absent
  | RouteStatus.broken => StratResult.raises

/-- The read fallback chain of `get_percent_triangles_lod0`, in source order:
`lods`, then `source_models`, then the StaticMeshEditorSubsystem. -/
def readOutcomes (static_mesh : StaticMesh) : List (StratResult ℚ) :=
  [routeRead static_mesh.lodsRead static_mesh.percent_triangles,
   routeRead static_mesh.sourceModelsRead static_mesh.percent_triangles,
   routeRead static_mesh.subsystemRead static_mesh.percent_triangles]

/-- The write fallback chain of `set_percent_triangles_lod0`, in source
order. -/
def writeOutcomes (static_mesh : StaticMesh) : List WriteResult :=
  [static_mesh.lodsWrite, static_mesh.sourceModelsWrite, static_mesh.subsystemWrite]

/-- Embedding of `get_percent_triangles_lod0` (defined identically in all
three scripts): run the three-strategy read fallback chain, returning the RAW
0..1 percent or `None`. -/
def get_percent_triangles_lod0 (static_mesh : StaticMesh) : Option ℚ :=
  readChain (readOutcomes static_mesh)

/-- Embedding of `set_percent_triangles_lod0` (defined identically in
`percenttriangles.py` and `OverReducedFinder.py`): try the `lods`,
`source_models`, then subsystem write path; the first that completes stores
the value and returns `True`; if all raise or find their container absent,
return `False` with the mesh unchanged. -/
def set_percent_triangles_lod0 (static_mesh : StaticMesh) (value_raw : ℚ) : Bool × StaticMesh :=
  match static_mesh.lodsWrite with
  | WriteResult.success => (true, { static_mesh with percent_triangles := value_raw })
  | _ =>
    match static_mesh.sourceModelsWrite with
    | WriteResult.success => (true, { static_mesh with percent_triangles := value_raw })
    | _ =>
      match static_mesh.subsystemWrite with
      | WriteResult.success => (true, { static_mesh with percent_triangles := value_raw })
      | _ => (false, static_mesh)

/-- Embedding of `get_lod0_triangle_count` (defined identically in
`OverReducedFinder.py` and `TrianglesListMaker.py`): try
`get_num_triangles(0)`, then the `render_data` fallback, else `-1` for
unknown. -/
def get_lod0_triangle_count (static_mesh : StaticMesh) : Int :=
  match static_mesh.triApi with
  | some n => n
  | none =>
    match static_mesh.triRender with
    | some n => n
    | none => -1

/-- `get_percent_triangles_lod0` as a state transformer.  The source function
only performs `get_editor_property` reads and float conversions — it contains
no `set_editor_property`, `setattr` or save call — so its state component is
the identity. -/
def read_with_state (static_mesh : StaticMesh) : Option ℚ × StaticMesh :=
  (get_percent_triangles_lod0 static_mesh, static_mesh)

/-- Replace only the read-route outcomes of a mesh, leaving every other
attribute (write routes, stored values, build/save behavior) unchanged. -/
def setReadRoutes (static_mesh : StaticMesh) (r1 r2 r3 : RouteStatus) : StaticMesh :=
  { static_mesh with lodsRead := r1, sourceModelsRead := r2, subsystemRead := r3 }

/-- Does the first list start with the second list (element-wise equality)? -/
def matchesAt {α : Type} [DecidableEq α] : List α → List α → Bool
  | _, [] => true
  | [], _ :: _ => false
  | a :: as, b :: bs => if a = b then matchesAt as bs else false

/-- Does the first list contain the second as a contiguous run? Embedding of
Python's `in` substring test over character lists. -/
def containsSeq {α : Type} [DecidableEq α] : List α → List α → Bool
  | _, [] => true
  | [], _ :: _ => false
  | a :: as, b :: bs => matchesAt (a :: as) (b :: bs) || containsSeq as (b :: bs)

namespace Percenttriangles

/-- Configured substring required in asset names (`NAME_TOKEN`). -/
def NAME_TOKEN : String := "_veh"

/-- Target percent in UI terms (`TARGET_PERCENT_UI = 10.0`). -/
def TARGET_PERCENT_UI : ℚ := 10

/-- Only modify meshes currently at 100% (`ONLY_WHEN_EQUALS_UI = 100.0`). -/
def ONLY_WHEN_EQUALS_UI : ℚ := 100

/-- UI-space comparison tolerance (`EPS_UI = 0.01`). -/
def EPS_UI : ℚ := 1 / 100

/-- Raw-space comparison tolerance (`EPS_RAW = 0.001`). -/
def EPS_RAW : ℚ := 1 / 1000

/-- Derived raw target (`TARGET_PERCENT_RAW = TARGET_PERCENT_UI / 100.0`). -/
def TARGET_PERCENT_RAW : ℚ := TARGET_PERCENT_UI / 100

/-- Derived raw full-resolution value (`ONLY_WHEN_EQUALS_RAW`). -/
def ONLY_WHEN_EQUALS_RAW : ℚ := ONLY_WHEN_EQUALS_UI / 100

/-- Triangle count cutoff (`TRIANGLE_CUTOFF = 0`, cutoff disabled). -/
def TRIANGLE_CUTOFF : Int := 0

/-- Config flag `SKIP_IF_ALREADY_BELOW_TARGET = True`. -/
def SKIP_IF_ALREADY_BELOW_TARGET : Bool := true

/-- Config flag `APPLY_IF_PERCENT_EQ_FULL = True`. -/
def APPLY_IF_PERCENT_EQ_FULL : Bool := true

/-- Per-mesh outcome of `percenttriangles.process_mesh`, abstracting the
returned message string to the branch that produced it. -/
inductive Status where
  | couldNotRead
  | alreadyAtTarget
  | skippedTriangleCutoff
  | skippedNotFullRes
  | wouldChange
  | changed
  | failedToApply
deriving DecidableEq

/-- Embedding of `percenttriangles.ensure_nanite_disabled`: via the preferred
API or the `nanite_settings` fallback, disable Nanite when it is enabled and
report `(was_enabled, is_enabled_after, changed)`; when the settings path is
absent or raises, report all-false and leave the mesh unchanged. -/
def ensure_nanite_disabled (static_mesh : StaticMesh) : (Bool × Bool × Bool) × StaticMesh :=
  match static_mesh.naniteAccess with
  | NaniteAccess.api =>
    if static_mesh.naniteEnabled then
      ((true, false, true), { static_mesh with naniteEnabled := false })
    else
      ((false, false, false), static_mesh)
  | NaniteAccess.settingsOk =>
    if static_mesh.naniteEnabled then
      ((true, false, true), { static_mesh with naniteEnabled := false })
    else
      ((false, false, false), static_mesh)
  | NaniteAccess.settingsAbsent => ((false, false, false), static_mesh)
  | NaniteAccess.settingsRaises => ((false, false, false), static_mesh)

/-- Embedding of `percenttriangles.build_and_save`: every build and save
attempt is wrapped in `try/except` that only logs; the function returns
nothing, so a failed save leaves the asset unpersisted with no status
reported to the caller. -/
def build_and_save (static_mesh : StaticMesh) : StaticMesh :=
  { static_mesh with persisted := static_mesh.persisted || static_mesh.saveOk }

/-- Embedding of `percenttriangles.process_mesh`: read the percent (early
return on failure), read the triangle count (default `-1`), ensure Nanite is
disabled, then apply the skip checks, the dry-run check, and finally the
write + build-and-save, reporting `(ok, status)`. -/
def process_mesh (static_mesh : StaticMesh) (dry_run : Bool) : (Bool × Status) × StaticMesh :=
  match get_percent_triangles_lod0 static_mesh with
  | none => ((false, Status.couldNotRead), static_mesh)
  | some percent_raw =>
    let tri_count : Int := static_mesh.triApi.getD (-1)
    let m1 := (ensure_nanite_disabled static_mesh).2
    if SKIP_IF_ALREADY_BELOW_TARGET && decide (|percent_raw - TARGET_PERCENT_RAW| ≤ EPS_RAW) then
      ((false, Status.alreadyAtTarget), m1)
    else if decide (0 < TRIANGLE_CUTOFF) && decide (0 ≤ tri_count) && decide (tri_count ≤ TRIANGLE_CUTOFF) then
      ((false, Status.skippedTriangleCutoff), m1)
    else if APPLY_IF_PERCENT_EQ_FULL && decide (EPS_RAW < |percent_raw - ONLY_WHEN_EQUALS_RAW|) then
      ((false, Status.skippedNotFullRes), m1)
    else if dry_run then
      ((true, Status.wouldChange), m1)
    else
      let s := set_percent_triangles_lod0 m1 TARGET_PERCENT_RAW
      if s.1 then
        ((true, Status.changed), build_and_save s.2)
      else
        ((false, Status.failedToApply), s.2)

end Percenttriangles

namespace OverReducedFinder

/-- Reduction threshold in UI percent (`REDUCTION_THRESHOLD_UI = 9.0`). -/
def REDUCTION_THRESHOLD_UI : ℚ := 9

/-- Triangle threshold (`TRIANGLE_THRESHOLD = 500`). -/
def TRIANGLE_THRESHOLD : Int := 500

/-- Substring required in package paths (`BUILDING_TOKEN = "Building"`). -/
def BUILDING_TOKEN : String := "Building"

/-- Raw restore target (`TARGET_PERCENT_RAW = 1.0`, i.e. 100%). -/
def TARGET_PERCENT_RAW : ℚ := 1

/-- Derived raw threshold (`REDUCTION_THRESHOLD_RAW`). -/
def REDUCTION_THRESHOLD_RAW : ℚ := REDUCTION_THRESHOLD_UI / 100

/-- Floating comparison tolerance (`EPS_RAW = 0.0005`). -/
def EPS_RAW : ℚ := 5 / 10000

/-- The `action` field of a candidate record (`MeshInfo.action`): `FOUND`,
`DRY-RUN`, `FIXED`, `SAVE-FAIL`, or `SET-FAIL`. -/
inductive Action where
  | found
  | dryRun
  | fixed
  | saveFail
  | setFail
deriving DecidableEq

/-- Embedding of the `MeshInfo` dataclass of `OverReducedFinder.py`: the
script-owned candidate record snapshotting one asset's attributes at scan
time plus the processing outcome. -/
structure MeshInfo where
  name : String
  package_path : String
  triangle_count : Int
  percent_raw_before : ℚ
  asset : StaticMesh
  action : Action := Action.found
  percent_raw_after : Option ℚ := none
deriving DecidableEq

/-- Embedding of `is_over_reduced`: `None` is not over-reduced; otherwise
compare the raw percent against the threshold. -/
def is_over_reduced (percent_raw : Option ℚ) (reduction_threshold_raw : ℚ) : Bool :=
  match percent_raw with
  | none => false
  | some v => decide (v < reduction_threshold_raw)

/-- Embedding of `has_building_token`: case-insensitive substring test of the
token in the package path. -/
def has_building_token (package_path token : String) : Bool :=
  containsSeq (package_path.toList.map Char.toLower) (token.toList.map Char.toLower)

/-- Embedding of `OverReducedFinder.build_and_save`: try the build APIs, then
the save APIs, each attempt swallowing exceptions; return whether both a
build and a save succeeded. -/
def build_and_save (static_mesh : StaticMesh) : Bool × StaticMesh :=
  (static_mesh.buildOk && static_mesh.saveOk,
   { static_mesh with persisted := static_mesh.persisted || static_mesh.saveOk })

/-- Embedding of `OverReducedFinder.collect_candidates`: scan the meshes in
order, keep those whose package path has the building token, whose triangle
count is known (non-negative), and which are over-reduced with a triangle
count below the threshold; snapshot each into a `MeshInfo` record. -/
def collect_candidates (reduction_threshold_raw : ℚ) (tri_threshold : Int)
    (building_token : String) : List StaticMesh → List MeshInfo
  | [] => []
  | sm :: rest =>
    if has_building_token sm.package_path building_token then
      if get_lod0_triangle_count sm < 0 then
        collect_candidates reduction_threshold_raw tri_threshold building_token rest
      else if is_over_reduced (get_percent_triangles_lod0 sm) reduction_threshold_raw
              && decide (get_lod0_triangle_count sm < tri_threshold) then
        { name := sm.name,
          package_path := sm.package_path,
          triangle_count := get_lod0_triangle_count sm,
          percent_raw_before := (get_percent_triangles_lod0 sm).getD 0,
          asset := sm } :: collect_candidates reduction_threshold_raw tri_threshold building_token rest
      else
        collect_candidates reduction_threshold_raw tri_threshold building_token rest
    else
      collect_candidates reduction_threshold_raw tri_threshold building_token rest

/-- Embedding of `OverReducedFinder.process_mesh`: on a dry run mark the
record `DRY-RUN`; otherwise write the target percent (on failure mark
`SET-FAIL`), then build and save (on failure mark `SAVE-FAIL`), and on full
success mark `FIXED`; the record's scan-time fields are never re-read. -/
def process_mesh (mesh_info : MeshInfo) (dry_run : Bool) : Bool × MeshInfo :=
  if dry_run then
    (true, { mesh_info with action := Action.dryRun, percent_raw_after := some TARGET_PERCENT_RAW })
  else
    let s := set_percent_triangles_lod0 mesh_info.asset TARGET_PERCENT_RAW
    if s.1 then
      let b := build_and_save s.2
      if b.1 then
        (true, { mesh_info with action := Action.fixed, asset := b.2,
                                percent_raw_after := some TARGET_PERCENT_RAW })
      else
        (false, { mesh_info with action := Action.saveFail, asset := b.2 })
    else
      (false, { mesh_info with action := Action.setFail, asset := s.2 })

end OverReducedFinder

namespace TrianglesListMaker

/-- Triangle threshold (`TRIANGLE_THRESHOLD = 50000`). -/
def TRIANGLE_THRESHOLD : Int := 50000

/-- Minimum raw percent considered unreduced (`UNREDUCED_MIN_RAW = 0.99`). -/
def UNREDUCED_MIN_RAW : ℚ := 99 / 100

/-- Floating comparison tolerance (`EPS_RAW = 0.0005`). -/
def EPS_RAW : ℚ := 5 / 10000

/-- Embedding of the `MeshInfo` dataclass of `TrianglesListMaker.py`. -/
structure MeshInfo where
  name : String
  package_path : String
  triangle_count : Int
  percent_raw : ℚ
  nanite_enabled : Bool
  asset : StaticMesh
deriving DecidableEq

/-- Embedding of `is_unreduced`: `None` is not unreduced; otherwise test
`percent_raw + EPS_RAW >= min_raw`. -/
def is_unreduced (percent_raw : Option ℚ) (min_raw : ℚ) : Bool :=
  match percent_raw with
  | none => false
  | some v => decide (min_raw ≤ v + EPS_RAW)

/-- The inline Nanite-state read of `TrianglesListMaker.collect_candidates`:
`is_nanite_enabled()` when available, else the `nanite_settings` fallback,
defaulting to `False` when that path is absent or raises. -/
def read_nanite_state (sm : StaticMesh) : Bool :=
  match sm.naniteAccess with
  | NaniteAccess.api => sm.naniteEnabled
  | NaniteAccess.settingsOk => sm.naniteEnabled
  | NaniteAccess.settingsAbsent => false
  | NaniteAccess.settingsRaises => false

/-- Embedding of `TrianglesListMaker.collect_candidates`: scan the meshes in
order, skip those with unknown or below-threshold triangle counts, and keep
the unreduced ones as `MeshInfo` records. -/
def collect_candidates (tri_threshold : Int) (unreduced_min_raw : ℚ) :
    List StaticMesh → List MeshInfo
  | [] => []
  | sm :: rest =>
    if get_lod0_triangle_count sm < 0 || get_lod0_triangle_count sm < tri_threshold then
      collect_candidates tri_threshold unreduced_min_raw rest
    else if is_unreduced (get_percent_triangles_lod0 sm) unreduced_min_raw then
      { name := sm.name,
        package_path := sm.package_path,
        triangle_count := get_lod0_triangle_count sm,
        percent_raw := (get_percent_triangles_lod0 sm).getD 1,
        nanite_enabled := read_nanite_state sm,
        asset := sm } :: collect_candidates tri_threshold unreduced_min_raw rest
    else
      collect_candidates tri_threshold unreduced_min_raw rest

end TrianglesListMaker

/-- Host object on which every read route is broken and every write route
raises: each strategy of both fallback chains raises. -/
def meshAllStrategiesRaise : StaticMesh :=
  { lodsRead := RouteStatus.broken,
    sourceModelsRead := RouteStatus.broken,
    subsystemRead := RouteStatus.broken,
    lodsWrite := WriteResult.raises,
    sourceModelsWrite := WriteResult.raises,
    subsystemWrite := WriteResult.raises }

/-- Host object whose three write routes all find their container absent:
every write strategy completes without raising, yet none performs the
write. -/
def meshWriteRoutesAbsent : StaticMesh :=
  { lodsWrite := WriteResult.absent,
    sourceModelsWrite := WriteResult.absent,
    subsystemWrite := WriteResult.absent }

/-- Host object whose percent cannot be read (all read routes broken) but
whose write routes work. -/
def meshUnreadable : StaticMesh :=
  { lodsRead := RouteStatus.broken,
    sourceModelsRead := RouteStatus.broken,
    subsystemRead := RouteStatus.broken }

/-- Host object at full resolution whose percent is readable but whose write
routes all raise. -/
def meshUnwritableFull : StaticMesh :=
  { lodsWrite := WriteResult.raises,
    sourceModelsWrite := WriteResult.raises,
    subsystemWrite := WriteResult.raises }

/-- Host object at full resolution that is writable but whose save (and
build) host calls raise, so persisting fails. -/
def meshSaveRaises : StaticMesh :=
  { buildOk := false, saveOk := false }

/-- Nanite-enabled host object at full resolution (reaches the dry-run
branch of percenttriangles.process_mesh). -/
def meshNaniteDry : StaticMesh :=
  { naniteEnabled := true }

/-- Nanite-enabled host object already at the target percent (hits the
already-at-target skip branch of percenttriangles.process_mesh). -/
def meshNaniteSkip : StaticMesh :=
  { naniteEnabled := true, percent_triangles := 1 / 10 }

/-- Host object on which neither triangle-count strategy yields a count. -/
def meshNoTriangleApi : StaticMesh :=
  { triApi := none }

/-- Concrete over-reduced building mesh for exercising
OverReducedFinder.collect_candidates. -/
def orfScanMesh : StaticMesh :=
  { package_path := "/Game/Building/SM_House",
    percent_triangles := 0,
    triApi := some 100 }

/-- The candidate record OverReducedFinder.collect_candidates produces for
`orfScanMesh`. -/
def orfWitnessInfo : OverReducedFinder.MeshInfo :=
  { name := "SM_Asset",
    package_path := "/Game/Building/SM_House",
    triangle_count := 100,
    percent_raw_before := 0,
    asset := orfScanMesh }

/-- Concrete unreduced high-triangle mesh for exercising
TrianglesListMaker.collect_candidates. -/
def tlmScanMesh : StaticMesh :=
  { triApi := some 60000 }

/-- The candidate record TrianglesListMaker.collect_candidates produces for
`tlmScanMesh`. -/
def tlmWitnessInfo : TrianglesListMaker.MeshInfo :=
  { name := "SM_Asset",
    package_path := "/Game/SM_Asset",
    triangle_count := 60000,
    percent_raw := 1,
    nanite_enabled := false,
    asset := tlmScanMesh }

/-- Candidate record whose asset cannot be written (all write routes
raise). -/
def orfInfoUnwritable : OverReducedFinder.MeshInfo :=
  { name := "SM_A",
    package_path := "/Game/Building/SM_A",
    triangle_count := 100,
    percent_raw_before := 0,
    asset := meshUnwritableFull }

/-- Candidate record whose asset can be written but not rebuilt/saved. -/
def orfInfoSaveFails : OverReducedFinder.MeshInfo :=
  { name := "SM_B",
    package_path := "/Game/Building/SM_B",
    triangle_count := 100,
    percent_raw_before := 0,
    asset := { buildOk := false } }

/-- Helper: a read chain whose strategies all raise or find their container
absent up to some point ignores that prefix. -/
lemma readChain_skip {α : Type} (pre : List (StratResult α)) (l : List (StratResult α))
    (h : ∀ s ∈ pre, s = StratResult.raises ∨ s = StratResult.absent) :
    readChain (pre ++ l) = readChain l := by
  induction pre with
  | nil => rfl
  | cons s rest ih =>
    rcases h s (List.mem_cons_self s rest) with hs | hs <;> subst hs <;>
      exact ih (fun t ht => h t (List.mem_cons_of_mem _ ht))

/-- Helper: a write chain ignores a prefix of strategies that do not
complete the write. -/
lemma writeChain_skip (pre : List WriteResult) (l : List WriteResult)
    (h : ∀ s ∈ pre, s ≠ WriteResult.success) :
    writeChain (pre ++ l) = writeChain l := by
  induction pre with
  | nil => rfl
  | cons s rest ih =>
    have hs := h s (List.mem_cons_self s rest)
    have hrest := ih (fun t ht => h t (List.mem_cons_of_mem _ ht))
    cases s with
    | raises => exact hrest
    | absent => exact hrest
    | success => exact absurd rfl hs

/-- C1: for every host object and every strategy chain of the accessor's
Read, if the Nth strategy is the first that completes without raising and
returns a present value, Read returns exactly that strategy's value,
regardless of whether the earlier strategies raised or returned absent; in
particular the chain [raises, returns 1/10, returns 1/4] reads 1/10 (the
third strategy never runs) and the chain [raises, raises, raises] reads
NOT_FOUND. -/
theorem read_first_present_strategy_wins :
    (∀ (α : Type) (pre : List (StratResult α)) (v : α) (post : List (StratResult α)),
        (∀ s ∈ pre, s = StratResult.raises ∨ s = StratResult.absent) →
        readChain (pre ++ StratResult.val v :: post) = some v)
    ∧ readChain [StratResult.raises, StratResult.val ((1 : ℚ) / 10), StratResult.val ((1 : ℚ) / 4)]
        = some ((1 : ℚ) / 10)
    ∧ readChain ([StratResult.raises, StratResult.raises, StratResult.raises] : List (StratResult ℚ))
        = none := by
  refine ⟨?_, rfl, rfl⟩
  intro α pre v post h
  rw [readChain_skip pre _ h]
  rfl

/-- Witness for C1 at a concrete chain: the first strategy raises, the
second returns 3, and Read returns 3. -/
theorem read_first_present_strategy_wins_witness :
    readChain [StratResult.raises, StratResult.val (3 : ℚ)] = some 3 :=
  read_first_present_strategy_wins.1 ℚ [StratResult.raises] 3 []
    (fun s hs => by rw [List.mem_singleton] at hs; exact Or.inl hs)

/-- C2: if every strategy of the chain raises, Read returns NOT_FOUND
(`none`) and Write returns false; both accessors are total functions over
the host state (failure is communicated only through the returned value),
and on a host object whose every route raises they return none and false. -/
theorem accessor_all_raise_not_found :
    (∀ (α : Type) (chain : List (StratResult α)),
        (∀ s ∈ chain, s = StratResult.raises) → readChain chain = none)
    ∧ (∀ chain : List WriteResult,
        (∀ s ∈ chain, s = WriteResult.raises) → writeChain chain = false)
    ∧ (∀ (m : StaticMesh) (value_raw : ℚ),
        m.lodsRead = RouteStatus.broken → m.sourceModelsRead = RouteStatus.broken →
        m.subsystemRead = RouteStatus.broken →
        m.lodsWrite = WriteResult.raises → m.sourceModelsWrite = WriteResult.raises →
        m.subsystemWrite = WriteResult.raises →
        get_percent_triangles_lod0 m = none
        ∧ (set_percent_triangles_lod0 m value_raw).1 = false) := by
  refine ⟨?_, ?_, ?_⟩
  · intro α chain h
    have := readChain_skip chain ([] : List (StratResult α))
      (fun s hs => Or.inl (h s hs))
    simpa using this
  · intro chain h
    have := writeChain_skip chain []
      (fun s hs => by rw [h s hs]; intro hc; cases hc)
    simpa using this
  · intro m v h1 h2 h3 h4 h5 h6
    constructor
    · simp [get_percent_triangles_lod0, readOutcomes, routeRead, readChain, h1, h2, h3]
    · simp [set_percent_triangles_lod0, h4, h5, h6]

/-- Witness for C2: concrete all-raising chains and the all-raising host
object produce none and false. -/
theorem accessor_all_raise_not_found_witness :
    readChain ([StratResult.raises, StratResult.raises] : List (StratResult ℚ)) = none
    ∧ writeChain [WriteResult.raises, WriteResult.raises, WriteResult.raises] = false
    ∧ get_percent_triangles_lod0 meshAllStrategiesRaise = none
    ∧ (set_percent_triangles_lod0 meshAllStrategiesRaise 1).1 = false :=
  ⟨accessor_all_raise_not_found.1 ℚ _ (by decide),
   accessor_all_raise_not_found.2.1 _ (by decide),
   (accessor_all_raise_not_found.2.2 meshAllStrategiesRaise 1 rfl rfl rfl rfl rfl rfl).1,
   (accessor_all_raise_not_found.2.2 meshAllStrategiesRaise 1 rfl rfl rfl rfl rfl rfl).2⟩

/-- C3 counterexample: a write strategy whose container is absent completes
without raising, yet it neither stops the chain nor makes Write return true;
the one-strategy chain [absent] yields false although its strategy did not
raise, and on a host object whose three write routes all find absent
containers the Write accessor returns false with no strategy raising. -/
theorem write_false_without_any_raise :
    writeChain [WriteResult.absent] = false
    ∧ WriteResult.absent ≠ WriteResult.raises
    ∧ (set_percent_triangles_lod0 meshWriteRoutesAbsent 1).1 = false := by
  refine ⟨rfl, ?_, rfl⟩
  intro h
  cases h

/-- C3 (amended): a Write strategy succeeds exactly when it completes
without raising AND finds its container present; the first succeeding
strategy stops the chain and Write returns true, and Write returns false
exactly when every strategy raises or finds its container absent; the
accessor's result is its write chain's result. -/
theorem write_first_success_semantics :
    (∀ pre post : List WriteResult,
        (∀ s ∈ pre, s ≠ WriteResult.success) →
        writeChain (pre ++ WriteResult.success :: post) = true)
    ∧ (∀ chain : List WriteResult,
        writeChain chain = false ↔ ∀ s ∈ chain, s ≠ WriteResult.success)
    ∧ (∀ (m : StaticMesh) (value_raw : ℚ),
        (set_percent_triangles_lod0 m value_raw).1 = writeChain (writeOutcomes m)) := by
  refine ⟨?_, ?_, ?_⟩
  · intro pre post h
    rw [writeChain_skip pre _ h]
    rfl
  · intro chain
    induction chain with
    | nil => simp [writeChain]
    | cons s rest ih =>
      cases s with
      | raises => simpa [writeChain] using ih
      | absent => simpa [writeChain] using ih
      | success => simp [writeChain]
  · intro m v
    cases h1 : m.lodsWrite <;> cases h2 : m.sourceModelsWrite <;> cases h3 : m.subsystemWrite <;>
      simp [set_percent_triangles_lod0, writeOutcomes, writeChain, h1, h2, h3]

/-- Witness for C3's amended chain semantics: with a raising first strategy
and a succeeding second one, Write returns true. -/
theorem write_first_success_semantics_witness :
    writeChain [WriteResult.raises, WriteResult.success] = true :=
  write_first_success_semantics.1 [WriteResult.raises] []
    (fun s hs => by rw [List.mem_singleton] at hs; subst hs; decide)

/-- C5: strategies after the first successful one are never invoked: in a
chain of three strategies where only the second succeeds, exactly two
strategies run and the third's outcome cannot influence the result; in
general the strategies after the first success never affect the chain's
result. -/
theorem strategies_after_success_never_run :
    (∀ (α : Type) (v : α) (s3 : StratResult α),
        readChain [StratResult.raises, StratResult.val v, s3] = some v
        ∧ attemptsRead [StratResult.raises, StratResult.val v, s3] = 2)
    ∧ (∀ s3 : WriteResult,
        writeChain [WriteResult.raises, WriteResult.success, s3] = true
        ∧ attemptsWrite [WriteResult.raises, WriteResult.success, s3] = 2)
    ∧ (∀ (α : Type) (pre : List (StratResult α)) (v : α) (post post2 : List (StratResult α)),
        (∀ s ∈ pre, s = StratResult.raises ∨ s = StratResult.absent) →
        readChain (pre ++ StratResult.val v :: post)
          = readChain (pre ++ StratResult.val v :: post2))
    ∧ (∀ pre post post2 : List WriteResult,
        (∀ s ∈ pre, s ≠ WriteResult.success) →
        writeChain (pre ++ WriteResult.success :: post)
          = writeChain (pre ++ WriteResult.success :: post2)) := by
  refine ⟨fun α v s3 => ⟨rfl, rfl⟩, fun s3 => ⟨rfl, rfl⟩, ?_, ?_⟩
  · intro α pre v post post2 h
    rw [readChain_skip pre _ h, readChain_skip pre _ h]
    rfl
  · intro pre post post2 h
    rw [writeChain_skip pre _ h, writeChain_skip pre _ h]
    rfl

/-- Witness for C5: on a concrete three-strategy chain where only the second
succeeds, replacing the third strategy by a raising one does not change the
result. -/
theorem strategies_after_success_never_run_witness :
    readChain [StratResult.raises, StratResult.val (5 : ℚ), StratResult.absent]
      = readChain [StratResult.raises, StratResult.val (5 : ℚ), StratResult.raises] :=
  strategies_after_success_never_run.2.2.1 ℚ [StratResult.raises] 5
    [StratResult.absent] [StratResult.raises]
    (fun s hs => by rw [List.mem_singleton] at hs; exact Or.inl hs)

/-- C6: Read is idempotent as a pure function of the host state: it leaves
the state unchanged, so calling it twice in a row with no intervening Write
yields the same result both times. -/
theorem read_twice_same_result :
    ∀ m : StaticMesh,
      (read_with_state m).2 = m
      ∧ (read_with_state ((read_with_state m).2)).1 = (read_with_state m).1 :=
  fun _ => ⟨rfl, rfl⟩

/-- C7: the reduction ratio snapshotted into a candidate record at scan time
is authoritative for the rest of that record's processing:
OverReducedFinder.process_mesh never re-reads the asset's percent (altering
the asset's read routes changes neither the returned flag nor the record's
action or percent fields) and it leaves percent_raw_before unchanged. -/
theorem scan_ratio_authoritative :
    (∀ (mesh_info : OverReducedFinder.MeshInfo) (dry_run : Bool) (r1 r2 r3 : RouteStatus),
        (OverReducedFinder.process_mesh
            { mesh_info with asset := setReadRoutes mesh_info.asset r1 r2 r3 } dry_run).1
          = (OverReducedFinder.process_mesh mesh_info dry_run).1
        ∧ (OverReducedFinder.process_mesh
            { mesh_info with asset := setReadRoutes mesh_info.asset r1 r2 r3 } dry_run).2.action
          = (OverReducedFinder.process_mesh mesh_info dry_run).2.action
        ∧ (OverReducedFinder.process_mesh
            { mesh_info with asset := setReadRoutes mesh_info.asset r1 r2 r3 } dry_run).2.percent_raw_after
          = (OverReducedFinder.process_mesh mesh_info dry_run).2.percent_raw_after)
    ∧ (∀ (mesh_info : OverReducedFinder.MeshInfo) (dry_run : Bool),
        (OverReducedFinder.process_mesh mesh_info dry_run).2.percent_raw_before
          = mesh_info.percent_raw_before) := by
  constructor
  · intro info d r1 r2 r3
    cases d <;>
      cases h1 : info.asset.lodsWrite <;>
      cases h2 : info.asset.sourceModelsWrite <;>
      cases h3 : info.asset.subsystemWrite <;>
      cases hb : info.asset.buildOk <;>
      cases hs : info.asset.saveOk <;>
      simp [OverReducedFinder.process_mesh, set_percent_triangles_lod0,
            OverReducedFinder.build_and_save, setReadRoutes, h1, h2, h3, hb, hs]
  · intro info d
    cases d <;>
      cases h1 : info.asset.lodsWrite <;>
      cases h2 : info.asset.sourceModelsWrite <;>
      cases h3 : info.asset.subsystemWrite <;>
      cases hb : info.asset.buildOk <;>
      cases hs : info.asset.saveOk <;>
      simp [OverReducedFinder.process_mesh, set_percent_triangles_lod0,
            OverReducedFinder.build_and_save, h1, h2, h3, hb, hs]

/-- C8: percenttriangles.process_mesh can mutate the asset even when it does
not apply the reduction change: ensure_nanite_disabled runs before the
dry-run check and before the skip checks, so a dry run on a Nanite-enabled
full-resolution mesh, and a non-dry run that skips an already-at-target
Nanite-enabled mesh, both flip the mesh's Nanite flag from enabled to
disabled. -/
theorem dry_run_still_disables_nanite :
    meshNaniteDry.naniteEnabled = true
    ∧ (Percenttriangles.process_mesh meshNaniteDry true).1
        = (true, Percenttriangles.Status.wouldChange)
    ∧ (Percenttriangles.process_mesh meshNaniteDry true).2.naniteEnabled = false
    ∧ meshNaniteSkip.naniteEnabled = true
    ∧ (Percenttriangles.process_mesh meshNaniteSkip false).1
        = (false, Percenttriangles.Status.alreadyAtTarget)
    ∧ (Percenttriangles.process_mesh meshNaniteSkip false).2.naniteEnabled = false := by
  refine ⟨rfl, ?_, ?_, rfl, ?_, ?_⟩ <;>
    norm_num [Percenttriangles.process_mesh, Percenttriangles.ensure_nanite_disabled,
      Percenttriangles.build_and_save, Percenttriangles.TARGET_PERCENT_RAW,
      Percenttriangles.TARGET_PERCENT_UI, Percenttriangles.ONLY_WHEN_EQUALS_RAW,
      Percenttriangles.ONLY_WHEN_EQUALS_UI, Percenttriangles.EPS_RAW,
      Percenttriangles.TRIANGLE_CUTOFF, Percenttriangles.SKIP_IF_ALREADY_BELOW_TARGET,
      Percenttriangles.APPLY_IF_PERCENT_EQ_FULL, get_percent_triangles_lod0,
      readOutcomes, routeRead, readChain, set_percent_triangles_lod0,
      meshNaniteDry, meshNaniteSkip, abs_le, lt_abs]

/-- C4 counterexample: in percenttriangles, a persist failure is NOT
recovered into a per-candidate status code: on a mesh whose save host calls
raise, process_mesh still returns the success status `changed` (identical to
a successful run) while the asset remains unpersisted; only the log records
the failure. -/
theorem persist_failure_still_reports_changed :
    meshSaveRaises.saveOk = false
    ∧ (Percenttriangles.process_mesh meshSaveRaises false).1
        = (true, Percenttriangles.Status.changed)
    ∧ (Percenttriangles.process_mesh meshSaveRaises false).2.persisted = false := by
  refine ⟨rfl, ?_, ?_⟩ <;>
    norm_num [Percenttriangles.process_mesh, Percenttriangles.ensure_nanite_disabled,
      Percenttriangles.build_and_save, Percenttriangles.TARGET_PERCENT_RAW,
      Percenttriangles.TARGET_PERCENT_UI, Percenttriangles.ONLY_WHEN_EQUALS_RAW,
      Percenttriangles.ONLY_WHEN_EQUALS_UI, Percenttriangles.EPS_RAW,
      Percenttriangles.TRIANGLE_CUTOFF, Percenttriangles.SKIP_IF_ALREADY_BELOW_TARGET,
      Percenttriangles.APPLY_IF_PERCENT_EQ_FULL, get_percent_triangles_lod0,
      readOutcomes, routeRead, readChain, set_percent_triangles_lod0,
      meshSaveRaises, abs_le, lt_abs]

/-- C4 (amended): property-unreadable and property-unwritable are recovered
into per-candidate status codes in both scripts, and persist failure into the
per-candidate SAVE-FAIL status in OverReducedFinder; in percenttriangles a
persist failure is only logged and the candidate still reports success; none
of the three propagates as a process-fatal error (all processing functions
are total over the host state). -/
theorem per_candidate_status_recovery :
    (∀ (m : StaticMesh) (dry_run : Bool),
        get_percent_triangles_lod0 m = none →
        (Percenttriangles.process_mesh m dry_run).1
          = (false, Percenttriangles.Status.couldNotRead))
    ∧ (∀ m : StaticMesh,
        get_percent_triangles_lod0 m = some 1 →
        (set_percent_triangles_lod0 (Percenttriangles.ensure_nanite_disabled m).2
            Percenttriangles.TARGET_PERCENT_RAW).1 = false →
        (Percenttriangles.process_mesh m false).1
          = (false, Percenttriangles.Status.failedToApply))
    ∧ (∀ mesh_info : OverReducedFinder.MeshInfo,
        (set_percent_triangles_lod0 mesh_info.asset OverReducedFinder.TARGET_PERCENT_RAW).1 = false →
        (OverReducedFinder.process_mesh mesh_info false).1 = false
        ∧ (OverReducedFinder.process_mesh mesh_info false).2.action
            = OverReducedFinder.Action.setFail)
    ∧ (∀ mesh_info : OverReducedFinder.MeshInfo,
        (set_percent_triangles_lod0 mesh_info.asset OverReducedFinder.TARGET_PERCENT_RAW).1 = true →
        (OverReducedFinder.build_and_save
            (set_percent_triangles_lod0 mesh_info.asset OverReducedFinder.TARGET_PERCENT_RAW).2).1
          = false →
        (OverReducedFinder.process_mesh mesh_info false).1 = false
        ∧ (OverReducedFinder.process_mesh mesh_info false).2.action
            = OverReducedFinder.Action.saveFail) := by
  refine ⟨?_, ?_, ?_, ?_⟩
  · intro m d hget
    simp [Percenttriangles.process_mesh, hget]
  · intro m hget hset
    have htgt : Percenttriangles.TARGET_PERCENT_RAW = 1 / 10 := by
      norm_num [Percenttriangles.TARGET_PERCENT_RAW, Percenttriangles.TARGET_PERCENT_UI]
    rw [htgt] at hset
    simp only [Percenttriangles.process_mesh, hget]
    norm_num [Percenttriangles.TARGET_PERCENT_RAW,
      Percenttriangles.TARGET_PERCENT_UI, Percenttriangles.ONLY_WHEN_EQUALS_RAW,
      Percenttriangles.ONLY_WHEN_EQUALS_UI, Percenttriangles.EPS_RAW,
      Percenttriangles.TRIANGLE_CUTOFF, Percenttriangles.SKIP_IF_ALREADY_BELOW_TARGET,
      Percenttriangles.APPLY_IF_PERCENT_EQ_FULL, abs_le, lt_abs, hset]
  · intro info hset
    constructor <;> simp [OverReducedFinder.process_mesh, hset]
  · intro info hset hsave
    constructor <;> simp [OverReducedFinder.process_mesh, hset, hsave]

/-- Witness for C4's amended statement: each error kind at a concrete
candidate yields the stated per-candidate status. -/
theorem per_candidate_status_recovery_witness :
    (Percenttriangles.process_mesh meshUnreadable false).1
      = (false, Percenttriangles.Status.couldNotRead)
    ∧ (Percenttriangles.process_mesh meshUnwritableFull false).1
        = (false, Percenttriangles.Status.failedToApply)
    ∧ (OverReducedFinder.process_mesh orfInfoUnwritable false).2.action
        = OverReducedFinder.Action.setFail
    ∧ (OverReducedFinder.process_mesh orfInfoSaveFails false).2.action
        = OverReducedFinder.Action.saveFail :=
  ⟨per_candidate_status_recovery.1 meshUnreadable false rfl,
   per_candidate_status_recovery.2.1 meshUnwritableFull rfl rfl,
   (per_candidate_status_recovery.2.2.1 orfInfoUnwritable rfl).2,
   (per_candidate_status_recovery.2.2.2 orfInfoSaveFails rfl rfl).2⟩

/-- Helper: every candidate record produced by
OverReducedFinder.collect_candidates has a readable reduction ratio and a
non-negative triangle count. -/
lemma orf_collect_mem_facts
    {thr : ℚ} {tthr : Int} {tok : String} {ms : List StaticMesh}
    {info : OverReducedFinder.MeshInfo}
    (h : info ∈ OverReducedFinder.collect_candidates thr tthr tok ms) :
    get_percent_triangles_lod0 info.asset ≠ none ∧ 0 ≤ info.triangle_count := by
  induction ms with
  | nil => simp [OverReducedFinder.collect_candidates] at h
  | cons sm rest ih =>
    rw [OverReducedFinder.collect_candidates] at h
    split at h
    · split at h
      · exact ih h
      · rename_i htc
        split at h
        · rename_i hsel
          rcases List.mem_cons.mp h with hEq | hMem
          · subst hEq
            have hover : OverReducedFinder.is_over_reduced
                (get_percent_triangles_lod0 sm) thr = true :=
              (Bool.and_eq_true_iff.mp hsel).1
            constructor
            · cases hg : get_percent_triangles_lod0 sm with
              | none => rw [hg] at hover; cases hover
              | some v => simp [hg]
            · simpa using Int.not_lt.mp htc
          · exact ih hMem
        · exact ih h
    · exact ih h

/-- Helper: every candidate record produced by
TrianglesListMaker.collect_candidates has a readable reduction ratio and a
non-negative triangle count. -/
lemma tlm_collect_mem_facts
    {tthr : Int} {mr : ℚ} {ms : List StaticMesh}
    {info : TrianglesListMaker.MeshInfo}
    (h : info ∈ TrianglesListMaker.collect_candidates tthr mr ms) :
    get_percent_triangles_lod0 info.asset ≠ none ∧ 0 ≤ info.triangle_count := by
  induction ms with
  | nil => simp [TrianglesListMaker.collect_candidates] at h
  | cons sm rest ih =>
    rw [TrianglesListMaker.collect_candidates] at h
    split at h
    · exact ih h
    · rename_i htc
      split at h
      · rename_i hunred
        rcases List.mem_cons.mp h with hEq | hMem
        · subst hEq
          constructor
          · cases hg : get_percent_triangles_lod0 sm with
            | none =>
              rw [hg] at hunred
              simp [TrianglesListMaker.is_unreduced] at hunred
            | some v => simp [hg]
          · have := htc
            simp only [Bool.or_eq_true, decide_eq_true_eq, not_or] at this
            simpa using Int.not_lt.mp this.1
        · exact ih hMem
      · exact ih h

/-- C9: an asset whose reduction ratio cannot be read is never selected as a
candidate: is_over_reduced and is_unreduced both reject a `None` ratio, so
every record either scan collects has a readable ratio. -/
theorem unreadable_ratio_never_selected :
    (∀ t : ℚ, OverReducedFinder.is_over_reduced none t = false)
    ∧ (∀ mr : ℚ, TrianglesListMaker.is_unreduced none mr = false)
    ∧ (∀ (thr : ℚ) (tthr : Int) (tok : String) (ms : List StaticMesh)
         (info : OverReducedFinder.MeshInfo),
        info ∈ OverReducedFinder.collect_candidates thr tthr tok ms →
        get_percent_triangles_lod0 info.asset ≠ none)
    ∧ (∀ (tthr : Int) (mr : ℚ) (ms : List StaticMesh)
         (info : TrianglesListMaker.MeshInfo),
        info ∈ TrianglesListMaker.collect_candidates tthr mr ms →
        get_percent_triangles_lod0 info.asset ≠ none) :=
  ⟨fun _ => rfl, fun _ => rfl,
   fun _ _ _ _ _ h => (orf_collect_mem_facts h).1,
   fun _ _ _ _ h => (tlm_collect_mem_facts h).1⟩

/-- C10: get_lod0_triangle_count returns the unknown sentinel -1 exactly when
no strategy yields a count, and both scanners skip assets with a negative
returned count, so every collected candidate record has a non-negative
triangle count (the sentinel never appears in a record). -/
theorem candidate_triangle_count_nonneg :
    (∀ m : StaticMesh, m.triApi = none → m.triRender = none →
        get_lod0_triangle_count m = -1)
    ∧ (∀ (thr : ℚ) (tthr : Int) (tok : String) (ms : List StaticMesh)
         (info : OverReducedFinder.MeshInfo),
        info ∈ OverReducedFinder.collect_candidates thr tthr tok ms →
        0 ≤ info.triangle_count)
    ∧ (∀ (tthr : Int) (mr : ℚ) (ms : List StaticMesh)
         (info : TrianglesListMaker.MeshInfo),
        info ∈ TrianglesListMaker.collect_candidates tthr mr ms →
        0 ≤ info.triangle_count) := by
  refine ⟨?_, fun _ _ _ _ _ h => (orf_collect_mem_facts h).2,
          fun _ _ _ _ h => (tlm_collect_mem_facts h).2⟩
  intro m h1 h2
  simp [get_lod0_triangle_count, h1, h2]

/-- Helper: concrete run of OverReducedFinder.collect_candidates producing
exactly one candidate record. -/
lemma orf_collect_concrete :
    OverReducedFinder.collect_candidates 1 500 "Building" [orfScanMesh] = [orfWitnessInfo] := by
  decide

/-- Helper: concrete run of TrianglesListMaker.collect_candidates producing
exactly one candidate record. -/
lemma tlm_collect_concrete :
    TrianglesListMaker.collect_candidates 50000 0 [tlmScanMesh] = [tlmWitnessInfo] := by
  have h1 : get_percent_triangles_lod0 tlmScanMesh = some 1 := rfl
  have h2 : get_lod0_triangle_count tlmScanMesh = 60000 := rfl
  have h3 : TrianglesListMaker.is_unreduced (some 1) 0 = true := by
    simp only [TrianglesListMaker.is_unreduced, decide_eq_true_eq]
    norm_num [TrianglesListMaker.EPS_RAW]
  have h4 : TrianglesListMaker.read_nanite_state tlmScanMesh = false := rfl
  have h5 : tlmScanMesh.name = "SM_Asset" := rfl
  have h6 : tlmScanMesh.package_path = "/Game/SM_Asset" := rfl
  simp [TrianglesListMaker.collect_candidates, h1, h2, h3, h4, h5, h6, tlmWitnessInfo]

/-- Witness for C9: both concrete scans produced a candidate, and its asset
ratio is readable. -/
theorem unreadable_ratio_never_selected_witness :
    get_percent_triangles_lod0 orfWitnessInfo.asset ≠ none
    ∧ get_percent_triangles_lod0 tlmWitnessInfo.asset ≠ none :=
  ⟨unreadable_ratio_never_selected.2.2.1 1 500 "Building" [orfScanMesh] orfWitnessInfo
      (by rw [orf_collect_concrete]; exact List.mem_singleton_self _),
   unreadable_ratio_never_selected.2.2.2 50000 0 [tlmScanMesh] tlmWitnessInfo
      (by rw [tlm_collect_concrete]; exact List.mem_singleton_self _)⟩

/-- Witness for C10: with both triangle-count strategies failing the count is
-1, and the concretely collected candidate records have non-negative
counts. -/
theorem candidate_triangle_count_nonneg_witness :
    get_lod0_triangle_count meshNoTriangleApi = -1
    ∧ 0 ≤ orfWitnessInfo.triangle_count
    ∧ 0 ≤ tlmWitnessInfo.triangle_count :=
  ⟨candidate_triangle_count_nonneg.1 meshNoTriangleApi rfl rfl,
   candidate_triangle_count_nonneg.2.1 1 500 "Building" [orfScanMesh] orfWitnessInfo
      (by rw [orf_collect_concrete]; exact List.mem_singleton_self _),
   candidate_triangle_count_nonneg.2.2 50000 0 [tlmScanMesh] tlmWitnessInfo
      (by rw [tlm_collect_concrete]; exact List.mem_singleton_self _)⟩
